import Mathlib

/-!
Verification of the AstraX credential-lifecycle backend (src/backend/main.py,
src/backend/models.py) against its specification.

Shallow embedding choices:
* The account store (SQLAlchemy `users` table) is a list of `User` records;
  `db.query(User).filter(User.email == e).first()` is `findByEmail`, and the
  ORM mutate-then-commit of a loaded row is `updateUser` (keyed by the unique
  `email` column).
* UTC instants (`datetime.now(timezone.utc)`) are integers (seconds); the
  `timedelta(minutes=10)` expiry window is the constant `tenMinutes`.
* `pwd_context.hash` is an explicit function parameter `hash`;
  `pwd_context.verify p h` is modelled as `hash p == h` (deterministic hash).
* The SMTP sends are modelled by a boolean parameter `sendOk` (whether the
  transport succeeds) plus a list of attempted `(toEmail, code)` dispatches.
* Python truthiness of an `Optional[str]` column (`not user.verification_code`)
  is `isFalsyStr`: true for `None` and for the empty string.
* The random 6-digit code from `randint(100000, 999999)` is a parameter
  `code`; the database-assigned primary key is a parameter `newId`.
-/

namespace AstraX

/-- The `users` table row (src/backend/models.py, class User). -/
structure User where
  id : Nat
  email : String
  passwordHash : String
  referralCode : Option String
  verificationCode : Option String
  verificationExpiresAt : Option Int
  isVerified : Bool
  resetCode : Option String
  resetExpiresAt : Option Int
  isAdmin : Bool
  deriving Repr, DecidableEq

/-- The account store: the rows of the `users` table. -/
abbrev Store := List User

/-- `db.query(User).filter(User.email == e).first()`. -/
def findByEmail (db : Store) (e : String) : Option User :=
  db.find? (fun u => u.email == e)

/-- Committing a mutation of a loaded row: replace the row with that (unique)
email by the mutated record. -/
def updateUser (db : Store) (u : User) : Store :=
  db.map (fun v => if v.email == u.email then u else v)

/-- Python truthiness test `not x` on an `Optional[str]`: true for `None` and
for the empty string. -/
def isFalsyStr : Option String → Bool
  | none => true
  | some s => s.isEmpty

/-- The guard `x and x < now` on an `Optional[datetime]` column `x`:
`None` is falsy, so a missing expiry is never expired. -/
def expired : Option Int → Int → Bool
  | none, _ => false
  | some t, now => t < now

/-- A FastAPI `HTTPException` (status code and detail message). -/
structure HTTPError where
  status : Nat
  detail : String
  deriving Repr, DecidableEq

/-- `HTTPException(status_code=400, detail="Неверный код")`. -/
def invalidCode : HTTPError := ⟨400, "Неверный код"⟩

/-- `HTTPException(status_code=400, detail="Срок действия кода истёк")`. -/
def codeExpired : HTTPError := ⟨400, "Срок действия кода истёк"⟩

/-- `HTTPException(status_code=401, detail="Неверный email или пароль")`. -/
def invalidCredentials : HTTPError := ⟨401, "Неверный email или пароль"⟩

/-- `HTTPException(status_code=400, detail="Пользователь уже зарегистрирован")`. -/
def alreadyRegistered : HTTPError := ⟨400, "Пользователь уже зарегистрирован"⟩

/-- `HTTPException(500, "Не удалось отправить письмо с кодом")`. -/
def notificationFailed : HTTPError := ⟨500, "Не удалось отправить письмо с кодом"⟩

/-- An uncaught exception escaping a FastAPI handler (the reset-request path
does not catch the SMTP failure). -/
def internalServerError : HTTPError := ⟨500, "Internal Server Error"⟩

/-- `timedelta(minutes=10)` in seconds. -/
def tenMinutes : Int := 600

/-- `OkResponse(ok=..., message=...)`. -/
structure OkResponse where
  ok : Bool
  message : Option String
  deriving Repr, DecidableEq

/-- `LoginResponse(ok=..., id=..., email=...)`. -/
structure LoginResponse where
  ok : Bool
  id : Nat
  email : String
  deriving Repr, DecidableEq

/-- Python string slicing `s[:n]`: the first `n` code points. -/
def strTake (s : String) (n : Nat) : String :=
  ⟨s.data.take n⟩

/-- Python `str.strip()`: drop leading and trailing whitespace. -/
def strip (s : String) : String :=
  ⟨((s.data.dropWhile Char.isWhitespace).reverse.dropWhile
      Char.isWhitespace).reverse⟩

/-- `pwd_context.verify(p, h)` for the deterministic hash model. -/
def verify_pwd (hash : String → String) (p h : String) : Bool :=
  hash p == h

/-- `body.referralCode or None`: an empty string collapses to `None`. -/
def orNone : Option String → Option String
  | none => none
  | some s => if s.isEmpty then none else some s

/-- POST /api/verify-email (src/backend/main.py, `verify_email`).
Returns the response (or error) together with the committed store. -/
def verify_email (db : Store) (email code : String) (now : Int) :
    Except HTTPError Bool × Store :=
  match findByEmail db email with
  | none => (.error invalidCode, db)
  | some user =>
    if isFalsyStr user.verificationCode then (.error invalidCode, db)
    else if expired user.verificationExpiresAt now then (.error codeExpired, db)
    else if user.verificationCode ≠ some (strip code) then (.error invalidCode, db)
    else
      (.ok true,
        updateUser db { user with isVerified := true,
                                  verificationCode := none,
                                  verificationExpiresAt := none })

/-- POST /api/password-reset/confirm (src/backend/main.py,
`password_reset_confirm`). -/
def password_reset_confirm (hash : String → String) (db : Store)
    (email code new_password : String) (now : Int) :
    Except HTTPError OkResponse × Store :=
  match findByEmail db email with
  | none => (.error invalidCode, db)
  | some user =>
    if isFalsyStr user.resetCode then (.error invalidCode, db)
    else if expired user.resetExpiresAt now then (.error codeExpired, db)
    else if user.resetCode ≠ some (strip code) then (.error invalidCode, db)
    else
      (.ok ⟨true, some "Пароль изменён"⟩,
        updateUser db { user with passwordHash := hash (strTake new_password 72),
                                  resetCode := none,
                                  resetExpiresAt := none })

/-- POST /api/password-reset/request (src/backend/main.py,
`password_reset_request`).  `code` is the freshly drawn random code, `sendOk`
whether the SMTP transport succeeds.  The third component lists the attempted
`(toEmail, code)` dispatches. -/
def password_reset_request (db : Store) (email code : String) (now : Int)
    (sendOk : Bool) :
    Except HTTPError OkResponse × Store × List (String × String) :=
  match findByEmail db email with
  | none => (.ok ⟨true, some "Если email существует — код отправлен"⟩, db, [])
  | some user =>
    let db' := updateUser db { user with resetCode := some code,
                                         resetExpiresAt := some (now + tenMinutes) }
    if sendOk then (.ok ⟨true, some "Код отправлен"⟩, db', [(user.email, code)])
    else (.error internalServerError, db', [(user.email, code)])

/-- POST /api/signup (src/backend/main.py, `signup`).  `code` is the freshly
drawn random code, `newId` the primary key the database would assign to a new
row, `sendOk` whether the SMTP transport succeeds. -/
def signup (hash : String → String) (db : Store) (email password : String)
    (referralCode : Option String) (code : String) (now : Int)
    (sendOk : Bool) (newId : Nat) :
    Except HTTPError Nat × Store × List (String × String) :=
  let expires_at := now + tenMinutes
  match findByEmail db email with
  | some existing =>
    if existing.isVerified then (.error alreadyRegistered, db, [])
    else
      let db' := updateUser db
        { existing with verificationCode := some code,
                        verificationExpiresAt := some expires_at }
      if sendOk then (.ok existing.id, db', [(existing.email, code)])
      else (.error notificationFailed, db', [(existing.email, code)])
  | none =>
    let user : User :=
      { id := newId
        email := email
        passwordHash := hash (strTake password 72)
        referralCode := orNone referralCode
        verificationCode := some code
        verificationExpiresAt := some expires_at
        isVerified := false
        resetCode := none
        resetExpiresAt := none
        isAdmin := false }
    let db' := db ++ [user]
    if sendOk then (.ok newId, db', [(email, code)])
    else (.error notificationFailed, db', [(email, code)])

/-- POST /api/login (src/backend/main.py, `login`).  Reads the store only. -/
def login (hash : String → String) (db : Store) (email password : String) :
    Except HTTPError LoginResponse :=
  match findByEmail db email with
  | none => .error invalidCredentials
  | some user =>
    if verify_pwd hash (strTake password 72) user.passwordHash then
      .ok ⟨true, user.id, user.email⟩
    else .error invalidCredentials

/-! ### Store lemmas -/

/-- A record returned by `findByEmail db e` has email `e`. -/
theorem findByEmail_email {db : Store} {e : String} {u : User}
    (h : findByEmail db e = some u) : u.email = e := by
  unfold findByEmail at h
  have hp := List.find?_some h
  simpa using hp

/-- Updating the record found at an email leaves it findable (with the new
contents), provided the update keeps the email. -/
theorem findByEmail_updateUser {db : Store} {e : String} {u u' : User}
    (h : findByEmail db e = some u) (he : u'.email = u.email) :
    findByEmail (updateUser db u') e = some u' := by
  have hue : u.email = e := findByEmail_email h
  unfold findByEmail updateUser at *
  induction db with
  | nil => simp at h
  | cons v vs ih =>
    by_cases hv : v.email = e
    · have hfv : (if v.email == u'.email then u' else v) = u' := by
        simp [he, hue, hv]
      rw [List.map_cons, hfv, List.find?_cons_of_pos]
      simp [he, hue]
    · have h' : List.find? (fun w => w.email == e) vs = some u := by
        rwa [List.find?_cons_of_neg _ (by simp [hv])] at h
      have hfv : (if v.email == u'.email then u' else v) = v := by
        simp [he, hue, hv]
      rw [List.map_cons, hfv, List.find?_cons_of_neg _ (by simp [hv])]
      exact ih h'

/-- Appending a fresh record to a store where the email is absent makes that
record findable at its own email. -/
theorem findByEmail_append_self {db : Store} {e : String}
    (h : findByEmail db e = none) (u : User) (hu : u.email = e) :
    findByEmail (db ++ [u]) e = some u := by
  unfold findByEmail at *
  rw [List.find?_append, h]
  simp [hu]

/-! ### Concrete data for witnesses -/

/-- A concrete deterministic stand-in for `pwd_context.hash` (injective). -/
def hashT (s : String) : String := String.append "pbkdf2:" s

/-- A sample account with pending verification and reset codes, both expiring
at instant 100. -/
def uA : User :=
  { id := 1, email := "a@x.com", passwordHash := hashT "pw1",
    referralCode := none, verificationCode := some "123456",
    verificationExpiresAt := some 100, isVerified := false,
    resetCode := some "654321", resetExpiresAt := some 100, isAdmin := false }

/-- A sample account with pending codes but null expiry timestamps. -/
def uB : User :=
  { id := 2, email := "b@x.com", passwordHash := hashT "pw2",
    referralCode := none, verificationCode := some "111111",
    verificationExpiresAt := none, isVerified := false,
    resetCode := some "222222", resetExpiresAt := none, isAdmin := false }

/-! ### Claims -/

/-- Claim C1: for every account with a pending code (verification or reset)
whose stored expiry is in the past, VerifyEmail and ConfirmPasswordReset fail
with CodeExpired — never InvalidCode — for every submitted code value,
including the one equal to the stored code: the expiry check runs before the
code-equality check. -/
theorem c1_expiry_checked_before_code_equality
    (hash : String → String) (db : Store) (e c newp : String) (now t : Int)
    (u : User) (hfind : findByEmail db e = some u) (hlt : t < now) :
    (isFalsyStr u.verificationCode = false → u.verificationExpiresAt = some t →
      (verify_email db e c now).1 = .error codeExpired) ∧
    (isFalsyStr u.resetCode = false → u.resetExpiresAt = some t →
      (password_reset_confirm hash db e c newp now).1 = .error codeExpired) := by
  constructor
  · intro hcode hexp
    simp [verify_email, hfind, hcode, hexp, expired, hlt]
  · intro hcode hexp
    simp [password_reset_confirm, hfind, hcode, hexp, expired, hlt]

/-- Witness for C1 at a concrete store: both endpoints, submitted code equal
to the stored one, expiry (100) before now (200). -/
theorem c1_witness :
    (verify_email [uA] "a@x.com" "123456" 200).1 = .error codeExpired ∧
    (password_reset_confirm hashT [uA] "a@x.com" "654321" "npw" 200).1 =
      .error codeExpired := by
  constructor
  · exact (c1_expiry_checked_before_code_equality hashT [uA] "a@x.com" "123456"
      "npw" 200 100 uA rfl (by decide)).1 rfl rfl
  · exact (c1_expiry_checked_before_code_equality hashT [uA] "a@x.com" "654321"
      "npw" 200 100 uA rfl (by decide)).2 rfl rfl

/-- Claim C3: a successful VerifyEmail sets isVerified and clears both
verification fields, so a repeated call with the same code fails with
InvalidCode (not CodeExpired), at any later instant. -/
theorem c3_verify_success_clears_code
    (db : Store) (e c : String) (now now2 : Int) (u : User)
    (hfind : findByEmail db e = some u)
    (hcode : isFalsyStr u.verificationCode = false)
    (hexp : expired u.verificationExpiresAt now = false)
    (hmatch : u.verificationCode = some (strip c)) :
    (verify_email db e c now).1 = .ok true ∧
    findByEmail (verify_email db e c now).2 e =
      some { u with isVerified := true, verificationCode := none,
                    verificationExpiresAt := none } ∧
    (verify_email (verify_email db e c now).2 e c now2).1 = .error invalidCode := by
  have hft : isFalsyStr (some (strip c)) = false := hmatch ▸ hcode
  have hres : verify_email db e c now =
      (.ok true, updateUser db { u with isVerified := true,
                                        verificationCode := none,
                                        verificationExpiresAt := none }) := by
    simp [verify_email, hfind, hcode, hexp, hmatch, hft]
  have hfind' : findByEmail (verify_email db e c now).2 e =
      some { u with isVerified := true, verificationCode := none,
                    verificationExpiresAt := none } := by
    rw [hres]
    exact findByEmail_updateUser hfind rfl
  refine ⟨by rw [hres], hfind', ?_⟩
  generalize hdb2 : (verify_email db e c now).2 = db2 at hfind' ⊢
  simp [verify_email, hfind', isFalsyStr]

/-- Witness for C3: verify with the stored code at instant 50 (before the
expiry 100), then repeat at instant 1000. -/
theorem c3_witness :
    (verify_email [uA] "a@x.com" "123456" 50).1 = .ok true ∧
    findByEmail (verify_email [uA] "a@x.com" "123456" 50).2 "a@x.com" =
      some { uA with isVerified := true, verificationCode := none,
                     verificationExpiresAt := none } ∧
    (verify_email (verify_email [uA] "a@x.com" "123456" 50).2
      "a@x.com" "123456" 1000).1 = .error invalidCode := by
  exact c3_verify_success_clears_code [uA] "a@x.com" "123456" 50 1000 uA
    rfl rfl rfl (by decide)

/-- Claim C9: a pending code with a null expiry timestamp never produces
CodeExpired — the expiry check is skipped — and a matching code is still
accepted at any instant whatsoever, in both VerifyEmail and
ConfirmPasswordReset. -/
theorem c9_null_expiry_skips_expiry_check
    (hash : String → String) (db : Store) (e c newp : String) (now : Int)
    (u : User) (hfind : findByEmail db e = some u) :
    (isFalsyStr u.verificationCode = false → u.verificationExpiresAt = none →
      (verify_email db e c now).1 ≠ .error codeExpired ∧
      (u.verificationCode = some (strip c) →
        (verify_email db e c now).1 = .ok true)) ∧
    (isFalsyStr u.resetCode = false → u.resetExpiresAt = none →
      (password_reset_confirm hash db e c newp now).1 ≠ .error codeExpired ∧
      (u.resetCode = some (strip c) →
        (password_reset_confirm hash db e c newp now).1 =
          .ok ⟨true, some "Пароль изменён"⟩)) := by
  constructor
  · intro hcode hexp
    constructor
    · by_cases hm : u.verificationCode = some (strip c)
      · have hft : isFalsyStr (some (strip c)) = false := hm ▸ hcode
        simp [verify_email, hfind, hcode, hexp, expired, hm, hft]
      · simp [verify_email, hfind, hcode, hexp, expired, hm, invalidCode,
          codeExpired]
    · intro hm
      have hft : isFalsyStr (some (strip c)) = false := hm ▸ hcode
      simp [verify_email, hfind, hcode, hexp, expired, hm, hft]
  · intro hcode hexp
    constructor
    · by_cases hm : u.resetCode = some (strip c)
      · have hft : isFalsyStr (some (strip c)) = false := hm ▸ hcode
        simp [password_reset_confirm, hfind, hcode, hexp, expired, hm, hft]
      · simp [password_reset_confirm, hfind, hcode, hexp, expired, hm,
          invalidCode, codeExpired]
    · intro hm
      have hft : isFalsyStr (some (strip c)) = false := hm ▸ hcode
      simp [password_reset_confirm, hfind, hcode, hexp, expired, hm, hft]

/-- Witness for C9: the account with null expiries still accepts its codes at
the very late instant 1000000. -/
theorem c9_witness :
    (verify_email [uB] "b@x.com" "111111" 1000000).1 = .ok true ∧
    (password_reset_confirm hashT [uB] "b@x.com" "222222" "npw" 1000000).1 =
      .ok ⟨true, some "Пароль изменён"⟩ := by
  have h := c9_null_expiry_skips_expiry_check hashT [uB] "b@x.com" "222222"
    "npw" 1000000 uB rfl
  constructor
  · exact ((c9_null_expiry_skips_expiry_check hashT [uB] "b@x.com" "111111"
      "npw" 1000000 uB rfl).1 rfl rfl).2 (by decide)
  · exact (h.2 rfl rfl).2 (by decide)

/-- Claim C4: Signup on an existing, unverified account (for any submitted
password) regenerates only verificationCode and verificationExpiresAt; every
other field, passwordHash included, is unchanged in the committed record. -/
theorem c4_signup_resend_preserves_password
    (hash : String → String) (db : Store) (e p : String) (rc : Option String)
    (code : String) (now : Int) (sendOk : Bool) (newId : Nat) (u : User)
    (hfind : findByEmail db e = some u) (hunv : u.isVerified = false) :
    findByEmail (signup hash db e p rc code now sendOk newId).2.1 e =
      some { u with verificationCode := some code,
                    verificationExpiresAt := some (now + tenMinutes) } := by
  have hres : (signup hash db e p rc code now sendOk newId).2.1 =
      updateUser db { u with verificationCode := some code,
                             verificationExpiresAt := some (now + tenMinutes) } := by
    cases sendOk <;> simp [signup, hfind, hunv]
  rw [hres]
  exact findByEmail_updateUser hfind rfl

/-- Witness for C4: re-signup of the unverified account uA with a different
password leaves everything but the verification code/expiry as it was. -/
theorem c4_witness :
    findByEmail (signup hashT [uA] "a@x.com" "otherpw" none "999999" 0 true
        7).2.1 "a@x.com" =
      some { uA with verificationCode := some "999999",
                     verificationExpiresAt := some (0 + tenMinutes) } := by
  exact c4_signup_resend_preserves_password hashT [uA] "a@x.com" "otherpw"
    none "999999" 0 true 7 uA rfl rfl

/-- Claim C5: Login returns the same error (status and message) for an
absent email as for a present account whose password does not verify: the
two runs are externally indistinguishable. -/
theorem c5_login_error_indistinguishable
    (hash : String → String) (db1 db2 : Store) (e1 e2 p1 p2 : String)
    (u : User)
    (habsent : findByEmail db1 e1 = none)
    (hfind : findByEmail db2 e2 = some u)
    (hbad : verify_pwd hash (strTake p2 72) u.passwordHash = false) :
    login hash db1 e1 p1 = .error invalidCredentials ∧
    login hash db2 e2 p2 = .error invalidCredentials := by
  constructor
  · simp [login, habsent]
  · simp [login, hfind, hbad]

/-- Witness for C5: unknown email against the empty store, and the wrong
password against the account uA, both produce the same 401 error. -/
theorem c5_witness :
    login hashT [] "a@x.com" "pw1" = .error invalidCredentials ∧
    login hashT [uA] "a@x.com" "wrong" = .error invalidCredentials := by
  exact c5_login_error_indistinguishable hashT [] [uA] "a@x.com" "a@x.com"
    "pw1" "wrong" uA rfl rfl (by decide)

/-- Claim C6: RequestPasswordReset on an email with no account returns a
success response, attempts no notification, and leaves the store unchanged. -/
theorem c6_reset_request_absent_email
    (db : Store) (e code : String) (now : Int) (sendOk : Bool)
    (habsent : findByEmail db e = none) :
    password_reset_request db e code now sendOk =
      (.ok ⟨true, some "Если email существует — код отправлен"⟩, db, []) := by
  simp [password_reset_request, habsent]

/-- Witness for C6: a reset request for an unknown email against the store
holding only uA. -/
theorem c6_witness :
    password_reset_request [uA] "z@x.com" "555555" 0 true =
      (.ok ⟨true, some "Если email существует — код отправлен"⟩, [uA], []) := by
  exact c6_reset_request_absent_email [uA] "z@x.com" "555555" 0 true rfl

/-- Claim C8: Login succeeds with the account identifier and email whenever
the password verifies, with no condition on isVerified — and flipping
isVerified to either value leaves the outcome unchanged. -/
theorem c8_login_ignores_isVerified
    (hash : String → String) (db : Store) (e p : String) (u : User)
    (hfind : findByEmail db e = some u)
    (hver : verify_pwd hash (strTake p 72) u.passwordHash = true) :
    login hash db e p = .ok ⟨true, u.id, u.email⟩ ∧
    ∀ b : Bool, login hash (updateUser db { u with isVerified := b }) e p =
      .ok ⟨true, u.id, u.email⟩ := by
  constructor
  · simp [login, hfind, hver]
  · intro b
    have hf2 : findByEmail (updateUser db { u with isVerified := b }) e =
        some { u with isVerified := b } := findByEmail_updateUser hfind rfl
    simp [login, hf2, hver]

/-- Witness for C8: uA is unverified yet logs in with its password; the same
holds after marking it verified. -/
theorem c8_witness :
    login hashT [uA] "a@x.com" "pw1" = .ok ⟨true, uA.id, uA.email⟩ ∧
    login hashT (updateUser [uA] { uA with isVerified := true }) "a@x.com"
      "pw1" = .ok ⟨true, uA.id, uA.email⟩ := by
  have h := c8_login_ignores_isVerified hashT [uA] "a@x.com" "pw1" uA rfl
    (by decide)
  exact ⟨h.1, h.2 true⟩

/-- Claim C2: when the notification send fails, Signup (both the resend and
the new-account branch) and RequestPasswordReset return the error only after
the store mutation is already committed: the resulting store is exactly the
mutated one (regenerated or fresh code and expiry, and the created account
for a new signup), even though the caller receives an error. -/
theorem c2_notification_failure_after_commit
    (hash : String → String) (db : Store) (e p : String) (rc : Option String)
    (code : String) (now : Int) (newId : Nat) :
    (∀ u, findByEmail db e = some u → u.isVerified = false →
      signup hash db e p rc code now false newId =
        (.error notificationFailed,
         updateUser db { u with verificationCode := some code,
                                verificationExpiresAt := some (now + tenMinutes) },
         [(u.email, code)])) ∧
    (findByEmail db e = none →
      signup hash db e p rc code now false newId =
        (.error notificationFailed,
         db ++ [{ id := newId, email := e,
                  passwordHash := hash (strTake p 72),
                  referralCode := orNone rc, verificationCode := some code,
                  verificationExpiresAt := some (now + tenMinutes),
                  isVerified := false, resetCode := none,
                  resetExpiresAt := none, isAdmin := false }],
         [(e, code)])) ∧
    (∀ u, findByEmail db e = some u →
      password_reset_request db e code now false =
        (.error internalServerError,
         updateUser db { u with resetCode := some code,
                                resetExpiresAt := some (now + tenMinutes) },
         [(u.email, code)])) := by
  refine ⟨?_, ?_, ?_⟩
  · intro u hfind hunv
    simp [signup, hfind, hunv]
  · intro habsent
    simp [signup, habsent]
  · intro u hfind
    simp [password_reset_request, hfind]

/-- Witness for C2: with the transport failing, re-signup of uA and a reset
request for uA both error while the committed store carries the new codes. -/
theorem c2_witness :
    signup hashT [uA] "a@x.com" "pw9" none "777777" 0 false 7 =
      (.error notificationFailed,
       updateUser [uA] { uA with verificationCode := some "777777",
                                 verificationExpiresAt := some (0 + tenMinutes) },
       [(uA.email, "777777")]) ∧
    password_reset_request [uA] "a@x.com" "888888" 0 false =
      (.error internalServerError,
       updateUser [uA] { uA with resetCode := some "888888",
                                 resetExpiresAt := some (0 + tenMinutes) },
       [(uA.email, "888888")]) := by
  have h1 := c2_notification_failure_after_commit hashT [uA] "a@x.com" "pw9"
    none "777777" 0 7
  have h2 := c2_notification_failure_after_commit hashT [uA] "a@x.com" "pw9"
    none "888888" 0 7
  exact ⟨h1.1 uA rfl rfl, h2.2.2 uA rfl⟩

/-- Claim C7: ConfirmPasswordReset with a pending, unexpired, matching code
succeeds, stores the hash of the truncated new password with both reset
fields cleared, and afterwards Login accepts the new password and rejects
the old one (whose hash differs from the new hash). -/
theorem c7_reset_confirm_rotates_password
    (hash : String → String) (db : Store) (e c oldp newp : String)
    (now : Int) (u : User)
    (hfind : findByEmail db e = some u)
    (hcode : isFalsyStr u.resetCode = false)
    (hexp : expired u.resetExpiresAt now = false)
    (hmatch : u.resetCode = some (strip c))
    (_hold : verify_pwd hash (strTake oldp 72) u.passwordHash = true)
    (hneq : hash (strTake oldp 72) ≠ hash (strTake newp 72)) :
    (password_reset_confirm hash db e c newp now).1 =
      .ok ⟨true, some "Пароль изменён"⟩ ∧
    findByEmail (password_reset_confirm hash db e c newp now).2 e =
      some { u with passwordHash := hash (strTake newp 72),
                    resetCode := none, resetExpiresAt := none } ∧
    login hash (password_reset_confirm hash db e c newp now).2 e newp =
      .ok ⟨true, u.id, u.email⟩ ∧
    login hash (password_reset_confirm hash db e c newp now).2 e oldp =
      .error invalidCredentials := by
  have hft : isFalsyStr (some (strip c)) = false := hmatch ▸ hcode
  have hres : password_reset_confirm hash db e c newp now =
      (.ok ⟨true, some "Пароль изменён"⟩,
       updateUser db { u with passwordHash := hash (strTake newp 72),
                              resetCode := none, resetExpiresAt := none }) := by
    simp [password_reset_confirm, hfind, hcode, hexp, hmatch, hft]
  have hfind' : findByEmail (password_reset_confirm hash db e c newp now).2 e =
      some { u with passwordHash := hash (strTake newp 72),
                    resetCode := none, resetExpiresAt := none } := by
    rw [hres]
    exact findByEmail_updateUser hfind rfl
  refine ⟨by rw [hres], hfind', ?_, ?_⟩
  · simp [login, hfind', verify_pwd]
  · simp [login, hfind', verify_pwd, hneq]

/-- Witness for C7: uA resets its password from pw1 to pw2 with the stored
code 654321 before expiry; pw2 then logs in, pw1 no longer does. -/
theorem c7_witness :
    (password_reset_confirm hashT [uA] "a@x.com" "654321" "pw2" 50).1 =
      .ok ⟨true, some "Пароль изменён"⟩ ∧
    login hashT (password_reset_confirm hashT [uA] "a@x.com" "654321" "pw2"
      50).2 "a@x.com" "pw2" = .ok ⟨true, uA.id, uA.email⟩ ∧
    login hashT (password_reset_confirm hashT [uA] "a@x.com" "654321" "pw2"
      50).2 "a@x.com" "pw1" = .error invalidCredentials := by
  have h := c7_reset_confirm_rotates_password hashT [uA] "a@x.com" "654321"
    "pw1" "pw2" 50 uA rfl rfl rfl (by decide) (by decide) (by decide)
  exact ⟨h.1, h.2.2.1, h.2.2.2⟩

/-- Claim C10: every password input is truncated to its first 72 code points
before hashing or verification, so Signup, Login and ConfirmPasswordReset
behave identically on any two passwords agreeing on those 72 code points. -/
theorem c10_passwords_truncated_to_72
    (hash : String → String) (db : Store) (e c : String) (rc : Option String)
    (code : String) (now : Int) (sendOk : Bool) (newId : Nat)
    (p1 p2 : String) (h : strTake p1 72 = strTake p2 72) :
    signup hash db e p1 rc code now sendOk newId =
      signup hash db e p2 rc code now sendOk newId ∧
    login hash db e p1 = login hash db e p2 ∧
    password_reset_confirm hash db e c p1 now =
      password_reset_confirm hash db e c p2 now := by
  refine ⟨?_, ?_, ?_⟩
  · unfold signup
    rw [h]
  · unfold login
    rw [h]
  · unfold password_reset_confirm
    rw [h]

/-- A 73-character password: 72 copies of a followed by b. -/
def pLong1 : String := ⟨List.replicate 72 'a' ++ ['b']⟩

/-- A 73-character password agreeing with pLong1 on the first 72 characters. -/
def pLong2 : String := ⟨List.replicate 72 'a' ++ ['c']⟩

/-- Witness for C10: two 73-character passwords differing only in the 73rd
character are interchangeable at Login. -/
theorem c10_witness :
    strTake pLong1 72 = strTake pLong2 72 ∧
    login hashT [uA] "a@x.com" pLong1 = login hashT [uA] "a@x.com" pLong2 := by
  have h : strTake pLong1 72 = strTake pLong2 72 := by decide
  exact ⟨h, (c10_passwords_truncated_to_72 hashT [uA] "a@x.com" "c" none
    "999999" 0 true 7 pLong1 pLong2 h).2.1⟩

end AstraX
